import Mathlib

/-!
Verification of the weather MCP server (`src/weather_mcp_server.py`): a
shallow embedding of its tool-listing and tool-calling handlers, its Basic
authentication gate, and its startup credential check, together with
theorems about them.

Modelling conventions:
* Python dicts of JSON values become association lists over an inductive
  `Json` type; `dict.get(key, default)` becomes `dictGet`.
* The outbound HTTP call made with httpx is abstracted by a `provider`
  function from the request parameters to a `FetchOutcome`: either a raised
  transport exception (network error, timeout) or a response carrying a
  status code and an optional parsed JSON body (`none` models a body that
  `response.json()` fails to parse).
* Python exceptions inside the handler become `Except String` with the
  exception text as payload; the exact exception texts produced by the
  Python runtime are not reproduced, only the fact that an exception of
  that kind is raised at that point, which is all the handler's
  `except Exception` branch observes via `str(e)`.
* `async` is dropped: each handler invocation is a pure function of its
  inputs and the provider's behaviour.
-/

/-- JSON values as produced by `response.json()`.  Numbers are modelled as
integers; no claim involves a fractional number. -/
inductive Json where
  | str (s : String)
  | num (n : Int)
  | arr (elems : List Json)
  | obj (fields : List (String × Json))
  | null

/-- The apostrophe character used by the Python `repr` of strings. -/
def pyQuote : String := String.singleton (Char.ofNat 39)

mutual

/-- Python `repr` of a JSON value (string escaping is not modelled; no
claim exercises it). -/
def Json.pyRepr : Json → String
  | .str s => pyQuote ++ s ++ pyQuote
  | .num n => toString n
  | .null => "None"
  | .arr xs => "[" ++ Json.pyReprList xs ++ "]"
  | .obj fs => "\x7b" ++ Json.pyReprFields fs ++ "\x7d"

/-- Comma-separated `repr` of list elements. -/
def Json.pyReprList : List Json → String
  | [] => ""
  | [x] => Json.pyRepr x
  | x :: xs => Json.pyRepr x ++ ", " ++ Json.pyReprList xs

/-- Comma-separated `repr` of dict entries. -/
def Json.pyReprFields : List (String × Json) → String
  | [] => ""
  | [(k, v)] => pyQuote ++ k ++ pyQuote ++ ": " ++ Json.pyRepr v
  | (k, v) :: fs =>
      pyQuote ++ k ++ pyQuote ++ ": " ++ Json.pyRepr v ++ ", " ++ Json.pyReprFields fs

end

/-- Python `str()` of a JSON value, as applied by f-string interpolation:
a string interpolates as itself, anything else as its `repr`. -/
def Json.pyStr : Json → String
  | .str s => s
  | j => j.pyRepr

/-- Python `data[key]` on a parsed JSON value: succeeds when `data` is a
dict containing `key`; otherwise raises (`KeyError` on a dict without the
key, `TypeError` on a non-dict), which the handler catches. -/
def Json.getItemKey (data : Json) (key : String) : Except String Json :=
  match data with
  | .obj fields =>
      match fields.find? (fun kv => kv.1 == key) with
      | some kv => .ok kv.2
      | none => .error ("KeyError: " ++ key)
  | _ => .error "TypeError: value is not subscriptable by string"

/-- Python `data[i]` on a parsed JSON value: succeeds when `data` is a list
with more than `i` elements; otherwise raises, which the handler catches. -/
def Json.getItemIdx (data : Json) (i : Nat) : Except String Json :=
  match data with
  | .arr elems =>
      match elems.get? i with
      | some v => .ok v
      | none => .error "IndexError: list index out of range"
  | _ => .error "TypeError: value is not subscriptable by index"

/-- ASCII string uppercasing, character by character (Python `str.upper()`
restricted to ASCII; the schema's unit values `"c"`/`"f"` are ASCII). -/
def pyUpper (s : String) : String := String.mk (s.data.map Char.toUpper)

/-- Python `unit.upper()`: succeeds on a string, raises `AttributeError`
on any other value (caught by the handler, since the call sits inside the
f-string in the `try` block). -/
def Json.upper (j : Json) : Except String String :=
  match j with
  | .str s => .ok (pyUpper s)
  | _ => .error "AttributeError: object has no attribute upper"

/-- Python `arguments.get(key, default)` on the argument dict. -/
def dictGet (d : List (String × Json)) (key : String) (dflt : Json) : Json :=
  match d.find? (fun kv => kv.1 == key) with
  | some kv => kv.2
  | none => dflt

/-- One MCP text content item (`types.TextContent(type="text", text=...)`). -/
structure TextContent where
  type : String
  text : String
deriving DecidableEq

/-- One MCP tool descriptor (`types.Tool`), with the schema kept as the
JSON value written in the source. -/
structure Tool where
  name : String
  description : String
  inputSchema : Json

/-- The hard-coded provider API key (line 27 of the source). -/
def SENIVERSE_API_KEY : String := "SEfimV0EAFJ9r7Iro"

/-- `handle_list_tools` (lines 33-48): returns the single `get_weather`
descriptor.  The `Unit` argument stands for one invocation; the function
is total (never fails) and constant (side-effect free, idempotent). -/
def handle_list_tools : Unit → List Tool := fun _ =>
  [ { name := "get_weather"
      description := "查询指定城市的天气预报信息 (实时数据)"
      inputSchema := Json.obj
        [ ("type", Json.str "object")
        , ("properties", Json.obj
            [ ("city", Json.obj
                [ ("type", Json.str "string")
                , ("description", Json.str "城市名称，例如：beijing, shanghai") ])
            , ("unit", Json.obj
                [ ("type", Json.str "string")
                , ("enum", Json.arr [Json.str "c", Json.str "f"])
                , ("default", Json.str "c") ]) ])
        , ("required", Json.arr [Json.str "city"]) ] } ]

/-- The query parameters of the outbound weather request (line 56). -/
structure WeatherRequest where
  url : String
  key : String
  location : Json
  language : String
  unit : Json

/-- Outcome of `client.get(url, params=params, timeout=10.0)` followed by
body parsing: either a raised transport exception (network error or
timeout), or a response with a status code and an optional parsed JSON
body (`none` when `response.json()` raises). -/
inductive FetchOutcome where
  | exn (msg : String)
  | response (statusCode : Nat) (body : Option Json)

/-- Builds the `params` dict of line 56 from the extracted `city` and
`unit` argument values. -/
def mkParams (city unit : Json) : WeatherRequest :=
  { url := "https://api.seniverse.com/v3/weather/now.json"
    key := SENIVERSE_API_KEY
    location := city
    language := "zh-Hans"
    unit := unit }

/-- The request `handle_call_tool` sends for a given argument dict:
`city` defaults to `"beijing"` and `unit` to `"c"` via `dict.get`
(lines 53-56). -/
def weatherRequest (args : List (String × Json)) : WeatherRequest :=
  mkParams (dictGet args "city" (Json.str "beijing"))
           (dictGet args "unit" (Json.str "c"))

/-- Lines 63-67: index into the parsed body and build the formatted
message, mirroring `data["results"][0]`, the two `result['now']`
accesses of the f-string, and `unit.upper()`; any failed access raises
and is caught by the enclosing `try`. -/
def formatWeather (data : Json) (unit : Json) : Except String String := do
  let results ← data.getItemKey "results"
  let result ← results.getItemIdx 0
  let loc ← result.getItemKey "location"
  let name ← loc.getItemKey "name"
  let nowA ← result.getItemKey "now"
  let text ← nowA.getItemKey "text"
  let nowB ← result.getItemKey "now"
  let temp ← nowB.getItemKey "temperature"
  let u ← unit.upper
  pure ("【实时天气】城市：" ++ name.pyStr ++ "\n天气：" ++ text.pyStr
        ++ "，温度：" ++ temp.pyStr ++ "°" ++ u)

/-- The body of the `try` block (lines 58-68): perform the outbound call,
`raise_for_status()` (raises on any non-2xx status), parse the body, and
format.  An `.error` models a raised exception reaching the `except`. -/
def fetchAndFormat (req : WeatherRequest) (unit : Json)
    (provider : WeatherRequest → FetchOutcome) : Except String String :=
  match provider req with
  | .exn msg => .error msg
  | .response statusCode body =>
      if 200 ≤ statusCode ∧ statusCode < 300 then
        match body with
        | none => .error "JSONDecodeError: response body is not valid JSON"
        | some data => formatWeather data unit
      else .error ("HTTPStatusError: status code " ++ toString statusCode)

/-- A failure of `handle_call_tool` that escapes the handler:
the `AttributeError` from `arguments.get` when `arguments` is `None`
(line 53, outside the `try`), or the `ValueError` raised for an unknown
tool name (line 71). -/
inductive CallError where
  | attributeError (msg : String)
  | valueError (msg : String)
deriving DecidableEq

/-- The `get_weather` branch once `arguments` is a dict (lines 53-70):
run the `try` body and return its message, or catch the exception and
return the `错误:`-prefixed text (line 70). -/
def callGetWeather (args : List (String × Json))
    (provider : WeatherRequest → FetchOutcome) : List TextContent :=
  match fetchAndFormat (weatherRequest args) (dictGet args "unit" (Json.str "c")) provider with
  | .ok formatted_msg => [⟨"text", formatted_msg⟩]
  | .error e => [⟨"text", "错误: " ++ e⟩]

/-- `handle_call_tool` (lines 50-71).  `arguments : dict | None` becomes
`Option`; `.error` models an exception escaping the handler, `.ok` a
returned content list. -/
def handle_call_tool (name : String) (arguments : Option (List (String × Json)))
    (provider : WeatherRequest → FetchOutcome) : Except CallError (List TextContent) :=
  if name == "get_weather" then
    match arguments with
    | none =>
        .error (.attributeError "NoneType object has no attribute get")
    | some args => .ok (callGetWeather args provider)
  else .error (.valueError ("Unknown tool: " ++ name))

/-- Basic-auth credentials as extracted by FastAPI (`HTTPBasicCredentials`). -/
structure HTTPBasicCredentials where
  username : String
  password : String
deriving DecidableEq

/-- The `HTTPException` raised by `authenticate` on failure
(status code, detail, headers). -/
structure HTTPExceptionData where
  status_code : Nat
  detail : String
  headers : List (String × String)
deriving DecidableEq

/-- `secrets.compare_digest` on two strings: returns `true` exactly when
they are equal.  Its constant-time execution is a runtime property with no
functional content. -/
def compare_digest (a b : String) : Bool := a == b

/-- `authenticate` (lines 92-101): both comparisons are computed, then the
request is rejected with a 401 challenge unless both succeed. -/
def authenticate (stored credentials : HTTPBasicCredentials) :
    Except HTTPExceptionData String :=
  let is_user_ok := compare_digest credentials.username stored.username
  let is_pass_ok := compare_digest credentials.password stored.password
  if ¬(is_user_ok && is_pass_ok) then
    .error { status_code := 401
             detail := "Unauthorized"
             headers := [("WWW-Authenticate", "Basic")] }
  else .ok credentials.username

/-- The observable effect of an endpoint body, reached only after
`authenticate` succeeds (the endpoint bodies on lines 107-113 run the
transport only after the `Depends(authenticate)` dependency returns). -/
inductive EndpointEffect where
  | sessionOpened
  | messageRouted
deriving DecidableEq

/-- `GET /sse` (lines 107-109): authenticate, then open the push stream. -/
def sse_endpoint (stored credentials : HTTPBasicCredentials) :
    Except HTTPExceptionData EndpointEffect :=
  (authenticate stored credentials).map (fun _ => .sessionOpened)

/-- `POST /messages` (lines 111-113): authenticate, then route the
message to the transport. -/
def messages_endpoint (stored credentials : HTTPBasicCredentials) :
    Except HTTPExceptionData EndpointEffect :=
  (authenticate stored credentials).map (fun _ => .messageRouted)

/-- The credential pair fixed at startup. -/
structure ServerConfig where
  API_USERNAME : String
  API_PASSWORD : String
deriving DecidableEq

/-- The startup credential sequence (lines 16-24): the username prompt
falls back to `"admin"` on empty input (Python `input(...) or DEFAULT_USER`);
an empty password calls `exit(1)` (modelled as `.error 1`) before the app
or listener is ever constructed — everything after line 24, including
`uvicorn.run` on line 119, is only reached on `.ok`. -/
def startup (usernameInput passwordInput : String) : Except Nat ServerConfig :=
  let apiUsername := if usernameInput == "" then "admin" else usernameInput
  if passwordInput == "" then .error 1
  else .ok { API_USERNAME := apiUsername, API_PASSWORD := passwordInput }

/-- `True` when the outbound fetch fails: transport exception (network
error or timeout), non-2xx status, or a body `response.json()` rejects. -/
def FetchFailed : FetchOutcome → Prop
  | .exn _ => True
  | .response statusCode body => ¬(200 ≤ statusCode ∧ statusCode < 300) ∨ body = none

/-- The stubbed provider body of the C4 test vector:
`{results:[{location:{name:"Beijing"},now:{text:"Sunny",temperature:"20"}}]}`. -/
def stubBodyBeijing : Json :=
  Json.obj
    [ ("results", Json.arr
        [ Json.obj
            [ ("location", Json.obj [("name", Json.str "Beijing")])
            , ("now", Json.obj
                [ ("text", Json.str "Sunny")
                , ("temperature", Json.str "20") ]) ] ]) ]

/-- A provider stub answering every request with HTTP 200 and the
Beijing body. -/
def stubProviderBeijing : WeatherRequest → FetchOutcome :=
  fun _ => .response 200 (some stubBodyBeijing)

/-- `pat` is a prefix of some tail of `s`. -/
def containsAux (pat : List Char) : List Char → Bool
  | [] => pat.isPrefixOf []
  | c :: rest => pat.isPrefixOf (c :: rest) || containsAux pat rest

/-- Substring test: `pat` occurs contiguously in `s`. -/
def strContains (s pat : String) : Bool := containsAux pat.toList s.toList

/-- Whether a handler invocation returned normally (no raised exception). -/
def exceptIsOk {ε α : Type} : Except ε α → Bool
  | .ok _ => true
  | .error _ => false

theorem dictGet_of_find?_none (d : List (String × Json)) (key : String) (dflt : Json)
    (h : d.find? (fun kv => kv.1 == key) = none) : dictGet d key dflt = dflt := by
  simp [dictGet, h]

theorem find?_append_of_none (d e : List (String × Json)) (key : String)
    (h : d.find? (fun kv => kv.1 == key) = none) :
    (d ++ e).find? (fun kv => kv.1 == key) = e.find? (fun kv => kv.1 == key) := by
  induction d with
  | nil => rfl
  | cons kv rest ih =>
      rw [List.find?_cons] at h
      rw [List.cons_append, List.find?_cons]
      cases hkv : (kv.1 == key) with
      | true => simp [hkv] at h
      | false =>
          simp only [hkv] at h ⊢
          exact ih h

theorem find?_append_of_some (d e : List (String × Json)) (key : String) (kv : String × Json)
    (h : d.find? (fun p => p.1 == key) = some kv) :
    (d ++ e).find? (fun p => p.1 == key) = some kv := by
  induction d with
  | nil => simp at h
  | cons hd rest ih =>
      rw [List.find?_cons] at h
      rw [List.cons_append, List.find?_cons]
      cases hhd : (hd.1 == key) with
      | true => simpa [hhd] using h
      | false =>
          simp only [hhd] at h ⊢
          exact ih h

theorem dictGet_append_of_key_ne (d : List (String × Json)) (k key : String)
    (v dflt : Json) (hk : (k == key) = false) :
    dictGet (d ++ [(k, v)]) key dflt = dictGet d key dflt := by
  unfold dictGet
  cases hf : d.find? (fun kv => kv.1 == key) with
  | none => rw [find?_append_of_none d [(k, v)] key hf]; simp [List.find?_cons, hk]
  | some kv => rw [find?_append_of_some d [(k, v)] key kv hf]

theorem dictGet_append_self (d : List (String × Json)) (key : String) (v dflt : Json)
    (h : d.find? (fun kv => kv.1 == key) = none) :
    dictGet (d ++ [(key, v)]) key dflt = v := by
  unfold dictGet
  rw [find?_append_of_none d [(key, v)] key h]
  simp [List.find?_cons]

theorem dictGet_cons_of_key_ne (d : List (String × Json)) (k key : String)
    (v dflt : Json) (hk : (k == key) = false) :
    dictGet ((k, v) :: d) key dflt = dictGet d key dflt := by
  unfold dictGet
  rw [List.find?_cons]
  simp [hk]

theorem handle_call_tool_resolved (args : List (String × Json))
    (provider : WeatherRequest → FetchOutcome) :
    handle_call_tool "get_weather" (some args) provider = .ok (callGetWeather args provider) :=
  rfl

theorem callTool_resolved_returns (args : List (String × Json))
    (provider : WeatherRequest → FetchOutcome) :
    exceptIsOk (handle_call_tool "get_weather" (some args) provider) = true :=
  rfl

theorem fetchAndFormat_of_failed (req : WeatherRequest) (unit : Json)
    (provider : WeatherRequest → FetchOutcome) (h : FetchFailed (provider req)) :
    ∃ e, fetchAndFormat req unit provider = .error e := by
  unfold fetchAndFormat
  cases hp : provider req with
  | exn msg => exact ⟨msg, rfl⟩
  | response statusCode body =>
      rw [hp] at h
      simp only [FetchFailed] at h
      by_cases hc : 200 ≤ statusCode ∧ statusCode < 300
      · have hb : body = none := h.resolve_left (not_not_intro hc)
        subst hb
        refine ⟨"JSONDecodeError: response body is not valid JSON", ?_⟩
        simp only [if_pos hc]
      · refine ⟨"HTTPStatusError: status code " ++ toString statusCode, ?_⟩
        simp only [if_neg hc]

theorem callGetWeather_congr (args1 args2 : List (String × Json))
    (provider : WeatherRequest → FetchOutcome)
    (hreq : weatherRequest args1 = weatherRequest args2)
    (hunit : dictGet args1 "unit" (Json.str "c") = dictGet args2 "unit" (Json.str "c")) :
    callGetWeather args1 provider = callGetWeather args2 provider := by
  unfold callGetWeather
  rw [hreq, hunit]

/-- C1: for every CallTool invocation with tool name "get_weather" and a
dict of arguments, if the outbound fetch fails in any way (network error,
timeout, non-2xx status, malformed upstream JSON) the handler catches the
failure and returns normally with a single text item whose content starts
with "错误: "; no exception escapes the handler for a resolved tool name. -/
theorem get_weather_fetch_failure_error_text
    (args : List (String × Json)) (provider : WeatherRequest → FetchOutcome)
    (h : FetchFailed (provider (weatherRequest args))) :
    (∃ rest, handle_call_tool "get_weather" (some args) provider
        = .ok [⟨"text", "错误: " ++ rest⟩]) ∧
    ∀ anyProvider : WeatherRequest → FetchOutcome,
      exceptIsOk (handle_call_tool "get_weather" (some args) anyProvider) = true := by
  refine ⟨?_, fun anyProvider => callTool_resolved_returns args anyProvider⟩
  obtain ⟨e, he⟩ :=
    fetchAndFormat_of_failed (weatherRequest args) (dictGet args "unit" (Json.str "c"))
      provider h
  refine ⟨e, ?_⟩
  rw [handle_call_tool_resolved]
  unfold callGetWeather
  rw [he]

/-- Witness for C1 at the spec's own stub: HTTP 500 with no parseable
body, for `{city:"x", unit:"f"}`. -/
theorem get_weather_fetch_failure_error_text_witness :
    (∃ rest, handle_call_tool "get_weather"
        (some [("city", Json.str "x"), ("unit", Json.str "f")])
        (fun _ => FetchOutcome.response 500 none)
        = .ok [⟨"text", "错误: " ++ rest⟩]) ∧
    ∀ anyProvider : WeatherRequest → FetchOutcome,
      exceptIsOk (handle_call_tool "get_weather"
        (some [("city", Json.str "x"), ("unit", Json.str "f")]) anyProvider) = true :=
  get_weather_fetch_failure_error_text
    [("city", Json.str "x"), ("unit", Json.str "f")]
    (fun _ => FetchOutcome.response 500 none) (Or.inr rfl)

/-- C2: for every tool name other than "get_weather", CallTool with any
arguments fails with the raised unknown-tool error and produces no
content list. -/
theorem call_tool_unknown_tool_raises (name : String)
    (arguments : Option (List (String × Json)))
    (provider : WeatherRequest → FetchOutcome) (h : name ≠ "get_weather") :
    handle_call_tool name arguments provider
      = .error (.valueError ("Unknown tool: " ++ name)) := by
  have hb : (name == "get_weather") = false := by simp [h]
  unfold handle_call_tool
  rw [hb]
  simp

/-- Witness for C2: the spec's `CallTool("unknown_tool", {})`. -/
theorem call_tool_unknown_tool_raises_witness :
    handle_call_tool "unknown_tool" (some []) (fun _ => FetchOutcome.exn "unused")
      = .error (.valueError ("Unknown tool: " ++ "unknown_tool")) :=
  call_tool_unknown_tool_raises "unknown_tool" (some [])
    (fun _ => FetchOutcome.exn "unused") (by decide)

/-- C3: authenticate succeeds iff both the username and the password match
the stored pair; on any mismatch it fails with a 401 Unauthorized carrying
a WWW-Authenticate Basic challenge, and neither endpoint proceeds to its
transport effect (no session opened, no message routed). -/
theorem authenticate_iff_match_and_rejects
    (stored credentials : HTTPBasicCredentials) :
    (exceptIsOk (authenticate stored credentials) = true ↔
      credentials.username = stored.username ∧
      credentials.password = stored.password) ∧
    (credentials.username ≠ stored.username ∨ credentials.password ≠ stored.password →
      authenticate stored credentials
          = .error ⟨401, "Unauthorized", [("WWW-Authenticate", "Basic")]⟩ ∧
      sse_endpoint stored credentials
          = .error ⟨401, "Unauthorized", [("WWW-Authenticate", "Basic")]⟩ ∧
      messages_endpoint stored credentials
          = .error ⟨401, "Unauthorized", [("WWW-Authenticate", "Basic")]⟩) := by
  by_cases hu : credentials.username = stored.username <;>
  by_cases hp : credentials.password = stored.password <;>
    simp [authenticate, compare_digest, sse_endpoint, messages_endpoint,
      exceptIsOk, Except.map, hu, hp]

/-- Witness for C3: correct username, wrong password is rejected with the
401 challenge. -/
theorem authenticate_iff_match_and_rejects_witness :
    authenticate ⟨"admin", "pw"⟩ ⟨"admin", "x"⟩
      = .error ⟨401, "Unauthorized", [("WWW-Authenticate", "Basic")]⟩ :=
  ((authenticate_iff_match_and_rejects ⟨"admin", "pw"⟩ ⟨"admin", "x"⟩).2
    (Or.inr (by decide))).1

/-- C4: CallTool("get_weather", {city:"beijing"}) against the stubbed 2xx
provider returns exactly one text item containing "Beijing", "Sunny",
"20" and the upper-cased default unit "C". -/
theorem get_weather_beijing_stub_result :
    handle_call_tool "get_weather" (some [("city", Json.str "beijing")]) stubProviderBeijing
      = .ok [⟨"text", "【实时天气】城市：Beijing\n天气：Sunny，温度：20°C"⟩] ∧
    strContains "【实时天气】城市：Beijing\n天气：Sunny，温度：20°C" "Beijing" = true ∧
    strContains "【实时天气】城市：Beijing\n天气：Sunny，温度：20°C" "Sunny" = true ∧
    strContains "【实时天气】城市：Beijing\n天气：Sunny，温度：20°C" "20" = true ∧
    strContains "【实时天气】城市：Beijing\n天气：Sunny，温度：20°C" "C" = true :=
  ⟨rfl, rfl, rfl, rfl, rfl⟩

/-- C5: ListTools never fails (it is a total constant function), is
idempotent, and returns exactly one descriptor named "get_weather" whose
schema declares city of type string as the only required property and
unit with enum [c, f] and default c; descriptor names are pairwise
distinct. -/
theorem list_tools_catalog :
    (∀ u v : Unit, handle_list_tools u = handle_list_tools v) ∧
    ((handle_list_tools ()).map Tool.name).Nodup ∧
    ∃ tool : Tool, handle_list_tools () = [tool] ∧
      tool.name = "get_weather" ∧
      tool.inputSchema.getItemKey "required" = .ok (Json.arr [Json.str "city"]) ∧
      (tool.inputSchema.getItemKey "properties" >>= fun p =>
        p.getItemKey "city" >>= fun c => c.getItemKey "type")
          = .ok (Json.str "string") ∧
      (tool.inputSchema.getItemKey "properties" >>= fun p =>
        p.getItemKey "unit" >>= fun u => u.getItemKey "enum")
          = .ok (Json.arr [Json.str "c", Json.str "f"]) ∧
      (tool.inputSchema.getItemKey "properties" >>= fun p =>
        p.getItemKey "unit" >>= fun u => u.getItemKey "default")
          = .ok (Json.str "c") := by
  refine ⟨fun u v => rfl, by decide, ⟨_, rfl, rfl, rfl, rfl, rfl, rfl⟩⟩

/-- C6: when the argument dict contains "city" but not "unit", calling
get_weather behaves identically to calling it with unit explicitly set to
the schema default "c": the same outbound request is sent and the same
result is returned. -/
theorem call_tool_unit_default_equiv (args : List (String × Json))
    (provider : WeatherRequest → FetchOutcome)
    (_hcity : (args.find? (fun kv => kv.1 == "city")).isSome = true)
    (hunit : args.find? (fun kv => kv.1 == "unit") = none) :
    handle_call_tool "get_weather" (some args) provider
      = handle_call_tool "get_weather" (some (args ++ [("unit", Json.str "c")])) provider := by
  have hcity2 : dictGet (args ++ [("unit", Json.str "c")]) "city" (Json.str "beijing")
      = dictGet args "city" (Json.str "beijing") :=
    dictGet_append_of_key_ne args "unit" "city" (Json.str "c") (Json.str "beijing") (by decide)
  have hu1 : dictGet args "unit" (Json.str "c") = Json.str "c" :=
    dictGet_of_find?_none args "unit" (Json.str "c") hunit
  have hu2 : dictGet (args ++ [("unit", Json.str "c")]) "unit" (Json.str "c") = Json.str "c" :=
    dictGet_append_self args "unit" (Json.str "c") (Json.str "c") hunit
  rw [handle_call_tool_resolved, handle_call_tool_resolved]
  refine congrArg Except.ok (callGetWeather_congr _ _ _ ?_ ?_)
  · unfold weatherRequest
    rw [hcity2, hu1, hu2]
  · rw [hu1, hu2]

/-- Witness for C6 at `{city:"beijing"}` and a network-error provider. -/
theorem call_tool_unit_default_equiv_witness :
    handle_call_tool "get_weather" (some [("city", Json.str "beijing")])
        (fun _ => FetchOutcome.exn "net down")
      = handle_call_tool "get_weather"
          (some ([("city", Json.str "beijing")] ++ [("unit", Json.str "c")]))
          (fun _ => FetchOutcome.exn "net down") :=
  call_tool_unit_default_equiv [("city", Json.str "beijing")]
    (fun _ => FetchOutcome.exn "net down") rfl rfl

/-- C7: an empty password at startup terminates the process (exit code 1)
before anything else runs; a non-empty password proceeds, and an empty
username falls back to the default "admin" instead of aborting. -/
theorem startup_requires_password (u p : String) (hp : p ≠ "") :
    startup u "" = .error 1 ∧
    startup u p = .ok ⟨if u == "" then "admin" else u, p⟩ ∧
    startup "" p = .ok ⟨"admin", p⟩ := by
  have hpb : (p == "") = false := by simp [hp]
  refine ⟨rfl, ?_, ?_⟩ <;> simp [startup, hpb]

/-- Witness for C7 at username "alice", password "pw". -/
theorem startup_requires_password_witness :
    startup "alice" "" = .error 1 ∧
    startup "alice" "pw" = .ok ⟨if "alice" == "" then "admin" else "alice", "pw"⟩ ∧
    startup "" "pw" = .ok ⟨"admin", "pw"⟩ :=
  startup_requires_password "alice" "pw" (by decide)

/-- C9 (implicit): when the argument dict omits "city", the handler does
not fail: it substitutes the default city "beijing" into the outbound
request and still returns normally, despite the advertised schema listing
city as required. -/
theorem call_tool_city_default (args : List (String × Json))
    (provider : WeatherRequest → FetchOutcome)
    (hcity : args.find? (fun kv => kv.1 == "city") = none) :
    (weatherRequest args).location = Json.str "beijing" ∧
    handle_call_tool "get_weather" (some args) provider
      = handle_call_tool "get_weather"
          (some (("city", Json.str "beijing") :: args)) provider ∧
    exceptIsOk (handle_call_tool "get_weather" (some args) provider) = true := by
  have h1 : dictGet args "city" (Json.str "beijing") = Json.str "beijing" :=
    dictGet_of_find?_none args "city" (Json.str "beijing") hcity
  have h2 : dictGet (("city", Json.str "beijing") :: args) "city" (Json.str "beijing")
      = Json.str "beijing" := by
    simp [dictGet, List.find?_cons]
  have h3 : dictGet (("city", Json.str "beijing") :: args) "unit" (Json.str "c")
      = dictGet args "unit" (Json.str "c") :=
    dictGet_cons_of_key_ne args "city" "unit" (Json.str "beijing") (Json.str "c") (by decide)
  refine ⟨?_, ?_, callTool_resolved_returns args provider⟩
  · simp [weatherRequest, mkParams, h1]
  · rw [handle_call_tool_resolved, handle_call_tool_resolved]
    refine congrArg Except.ok (callGetWeather_congr _ _ _ ?_ h3.symm)
    unfold weatherRequest
    rw [h1, h2, h3]

/-- Witness for C9 at the empty argument dict. -/
theorem call_tool_city_default_witness :
    (weatherRequest []).location = Json.str "beijing" ∧
    handle_call_tool "get_weather" (some []) stubProviderBeijing
      = handle_call_tool "get_weather"
          (some [("city", Json.str "beijing")]) stubProviderBeijing ∧
    exceptIsOk (handle_call_tool "get_weather" (some []) stubProviderBeijing) = true :=
  call_tool_city_default [] stubProviderBeijing rfl

/-- C10 (implicit): invoking get_weather with arguments = None raises an
uncaught AttributeError out of the handler (argument extraction happens
before the try block), rather than returning a text error result. -/
theorem call_tool_none_arguments_raises (provider : WeatherRequest → FetchOutcome) :
    handle_call_tool "get_weather" none provider
      = .error (.attributeError "NoneType object has no attribute get") :=
  rfl
